import Mathlib

/-!
Shallow embedding of `scripts/check_dev_tools.py` (the dev-tools checking
engine of the radial-menus repository).

The ambient system (search path, subprocess execution, filesystem, and the
regex engine used for user-supplied custom patterns) is modelled as an
explicit environment record `Env`.  Every function of the engine becomes a
pure Lean function of that environment.  Python behaviours that matter here
are modelled explicitly:

* `subprocess.run` either completes with a return code / stdout / stderr, or
  raises (timeout, missing executable, other exception) — `RunOutcome`.
* Python string truthiness: the empty string is falsy (`pyOr`, and the
  explicit `≠ ""` tests below mirror `if s:` on a string).
* A Python function falling off its end returns `None`: `check_xcode`
  therefore returns `Option ToolResult`.
* A `KeyError` from a missing mandatory configuration key, and the
  `TypeError` raised by `asdict(None)` in `run_checks`, are modelled with
  `Except String`.
* The three fixed default version patterns of `extract_version` are
  implemented directly (leftmost search, greedy `\d+` runs, as for these
  patterns greedy matching is exactly maximal munch); `\d` is taken as an
  ASCII digit.  A user-supplied custom pattern is an oracle in `Env`.
* A Python installation-hint dict is modelled as an `Installation` record of
  optional fields; `tool_config["installation"]["primary"]` (both keys
  present) is `ToolDescriptor.installation_primary`.  A present-but-empty
  `{}` hint dict (falsy in Python, like an absent one) is modelled as `none`.
-/

namespace DevTools

/-- Outcome of `subprocess.run` inside the `try` of `run_command`:
normal completion, `TimeoutExpired`, `FileNotFoundError`, or any other
exception carrying its message text. -/
inductive RunOutcome where
  | completed (returncode : Int) (stdout : String) (stderr : String)
  | timedOut
  | missing
  | exc (msg : String)
deriving DecidableEq

/-- Result of matching a user-supplied custom pattern: whether the pattern
declares capturing groups (`match.groups()` nonempty), the text captured by
group 1 (absent when the group did not participate), and the full match
(`match.group(0)`). -/
structure ReMatch where
  hasGroups : Bool
  group1 : Option String
  group0 : String
deriving DecidableEq

/-- The ambient system state the checker probes: `shutil.which`, running a
subprocess, `Path(...).exists()`, and `re.search` for custom patterns only. -/
structure Env where
  which : String → Option String
  run : List String → RunOutcome
  pathExists : String → Bool
  reSearch : String → String → Option ReMatch

/-- An `issues` entry (the `Issue` dataclass / the dict literals built
throughout the checker). -/
structure Issue where
  level : String
  message : String
  fix : Option String
deriving DecidableEq

/-- An installation hint dict (keys `method` / `command` / `url` / `notes`,
each possibly absent). -/
structure Installation where
  method : Option String
  command : Option String
  url : Option String
  notes : Option String
deriving DecidableEq

/-- The `ToolResult` dataclass. -/
structure ToolResult where
  id : String
  name : String
  category : String
  status : String
  installed : Bool
  working : Bool
  version : Option String
  path : Option String
  check_type : String
  issues : List Issue
  installation : Option Installation
deriving DecidableEq

/-- The `check` section of one tool-configuration dict: `type` (defaulting
to `"command"` when absent), and the strategy-specific keys. -/
structure CheckSpec where
  type : Option String := none
  function : Option String := none
  command : Option String := none
  version_flag : Option String := none
  version_regex : Option String := none
  paths : Option (List String) := none
deriving DecidableEq

/-- One tool-configuration dict.  `id`, `name`, `category` are the mandatory
keys; `check` may be absent (`tool_config.get("check", {})`);
`installation_primary` is `tool_config["installation"]["primary"]` when both
keys are present, `none` otherwise. -/
structure ToolDescriptor where
  id : String
  name : String
  category : String
  check : Option CheckSpec := none
  installation_primary : Option Installation := none
deriving DecidableEq

/-- An entry of the aggregate report's `recommendations` list. -/
structure Recommendation where
  priority : String
  message : String
  action : Option String
deriving DecidableEq

/-- The `summary` object of the aggregate report. -/
structure Summary where
  all_required_present : Bool
  required_count : Nat
  required_present : Nat
  optional_count : Nat
  optional_present : Nat
deriving DecidableEq

/-- The aggregate report built by `run_checks` (timestamp and system info
carry no checking logic and are omitted). -/
structure Report where
  summary : Summary
  tools : List ToolResult
  recommendations : List Recommendation
deriving DecidableEq

/-- Python `sub in s` on strings: `needle` occurs as a contiguous substring. -/
def strStartsChars : List Char → List Char → Bool
  | [], _ => true
  | _ :: _, [] => false
  | a :: as, b :: bs => a == b && strStartsChars as bs

/-- Occurrence of `needle` anywhere in the character list. -/
def strHasChars (needle : List Char) : List Char → Bool
  | [] => strStartsChars needle []
  | b :: bs => strStartsChars needle (b :: bs) || strHasChars needle bs

/-- Python `needle in s`. -/
def strContains (s needle : String) : Bool :=
  strHasChars needle.data s.data

/-- Python `a or b` on two optional strings, as used by
`installation.get("command") or installation.get("url")`: an absent or empty
first operand is falsy. -/
def pyOr (a b : Option String) : Option String :=
  match a with
  | some s => if s = "" then b else some s
  | none => b

/-- Python `str(x)` of an `Optional[str]`, as interpolated into an f-string:
`None` prints as `"None"`. -/
def pyShowOpt : Option String → String
  | none => "None"
  | some s => s

/-- Python `s.strip()`: whitespace removed from both ends.  (Implemented
over the character list because the core `String.trim` does not reduce in
the kernel.) -/
def pyStrip (s : String) : String :=
  String.mk (((s.data.dropWhile Char.isWhitespace).reverse.dropWhile
    Char.isWhitespace).reverse)

/-- Python `s.lower()` (ASCII, which covers every name in the source). -/
def pyLower (s : String) : String :=
  String.mk (s.data.map Char.toLower)

/-- Python `s.lower().replace(" ", "_")` as used by `check_framework` to
derive a result id from the display name. -/
def pyLowerUnderscore (s : String) : String :=
  String.mk ((pyLower s).data.map (fun c => if c = ' ' then '_' else c))

/-- `DevToolsChecker.run_command`: returns `(success, stdout, stderr)`.
With `check_error = False`, any completed run counts as success regardless
of its exit code; `TimeoutExpired` / `FileNotFoundError` / other exceptions
are absorbed into `(False, "", message)`. -/
def run_command (env : Env) (command : List String) (check_error : Bool) :
    Bool × String × String :=
  match env.run command with
  | .completed rc out err => (if check_error then rc == 0 else true, out, err)
  | .timedOut => (false, "", "Command timed out")
  | .missing => (false, "", "Command not found")
  | .exc msg => (false, "", msg)

/-- Maximal run of ASCII digits at the front (`\d+` is greedy; for the fixed
patterns below greedy matching equals maximal munch). -/
def takeDigits : List Char → List Char × List Char
  | [] => ([], [])
  | c :: cs =>
    if c.isDigit then
      let r := takeDigits cs
      (c :: r.1, r.2)
    else ([], c :: cs)

/-- Match `\d+\.\d+` at the current position, returning the matched text. -/
def matchNumPair (cs : List Char) : Option (List Char) :=
  let r1 := takeDigits cs
  if r1.1 = [] then none
  else
    match r1.2 with
    | '.' :: r2 =>
      let d2 := takeDigits r2
      if d2.1 = [] then none else some (r1.1 ++ '.' :: d2.1)
    | _ => none

/-- Match `\d+\.\d+\.\d+` at the current position, returning the matched
text. -/
def matchNumTriple (cs : List Char) : Option (List Char) :=
  let r1 := takeDigits cs
  if r1.1 = [] then none
  else
    match r1.2 with
    | '.' :: r2 =>
      let d2 := takeDigits r2
      if d2.1 = [] then none
      else
        match d2.2 with
        | '.' :: r3 =>
          let d3 := takeDigits r3
          if d3.1 = [] then none
          else some (r1.1 ++ '.' :: d2.1 ++ '.' :: d3.1)
        | _ => none
    | _ => none

/-- Case-insensitive literal match; returns the remaining input on success. -/
def dropLitCI : List Char → List Char → Option (List Char)
  | [], cs => some cs
  | _ :: _, [] => none
  | p :: ps, c :: cs => if p.toLower == c.toLower then dropLitCI ps cs else none

/-- Match `version (\d+\.\d+)` (IGNORECASE) at the current position,
returning group 1. -/
def matchVersionLabel (cs : List Char) : Option (List Char) :=
  match dropLitCI "version ".data cs with
  | some rest => matchNumPair rest
  | none => none

/-- Match `v(\d+\.\d+\.\d+)` (IGNORECASE) at the current position,
returning group 1. -/
def matchVTriple (cs : List Char) : Option (List Char) :=
  match dropLitCI "v".data cs with
  | some rest => matchNumTriple rest
  | none => none

/-- `re.search`: try the matcher at every position left to right, returning
the leftmost match. -/
def searchFirst (m : List Char → Option (List Char)) : List Char → Option (List Char)
  | [] => m []
  | c :: cs =>
    match m (c :: cs) with
    | some v => some v
    | none => searchFirst m cs

/-- Leftmost match of one default pattern in a string. -/
def searchPat (m : List Char → Option (List Char)) (s : String) : Option String :=
  (searchFirst m s.data).map String.mk

/-- The fixed default pattern list of `extract_version`, in source order:
`(\d+\.\d+\.\d+)`, `version (\d+\.\d+)`, `v(\d+\.\d+\.\d+)`. -/
def defaultMatchers : List (List Char → Option (List Char)) :=
  [matchNumTriple, matchVersionLabel, matchVTriple]

/-- The `for pattern in patterns` loop: first pattern (in list order) that
matches anywhere in the text wins. -/
def tryPatterns : List (List Char → Option (List Char)) → String → Option String
  | [], _ => none
  | m :: ms, s =>
    match searchPat m s with
    | some v => some v
    | none => tryPatterns ms s

/-- The default-pattern phase of `extract_version`. -/
def findDefault (s : String) : Option String :=
  tryPatterns defaultMatchers s

/-- `DevToolsChecker.extract_version`.  Empty output yields no version; a
custom pattern is tried first (group 1 when the pattern has groups, else the
full match — returned even when group 1 did not participate); otherwise the
fixed default patterns are tried in order. -/
def extract_version (env : Env) (output : String) (regex : Option String) :
    Option String :=
  if output = "" then none
  else
    match regex with
    | some rx =>
      match env.reSearch rx output with
      | some m => if m.hasGroups then m.group1 else some m.group0
      | none => findDefault output
    | none => findDefault output

/-- The `for flag in ["-v", "version", "-version", "--version"]` fallback
loop of `check_command`: the first flag whose run reports success or has any
stdout/stderr ends the loop with `stdout if stdout else stderr`; exhaustion
(the `for`/`else`) yields `none`, which `check_command` turns into
"command exists but version unknown". -/
def fallbackOutput (env : Env) (command : String) : List String → Option String
  | [] => none
  | flag :: rest =>
    let r := run_command env [command, flag] false
    if r.1 || r.2.1 ≠ "" || r.2.2 ≠ "" then
      some (if r.2.1 ≠ "" then r.2.1 else r.2.2)
    else fallbackOutput env command rest

/-- `DevToolsChecker.check_command`: returns `(exists, version, path)`.
Note the primary probe runs with `check_error = False`, so a completed run
counts as success whatever its exit code; the fallback loop is reached only
when the primary run raised (timeout / missing / exception) with empty
stderr text. -/
def check_command (env : Env) (command : String) (version_flag : String)
    (version_regex : Option String) : Bool × Option String × Option String :=
  match env.which command with
  | none => (false, none, none)
  | some cmd_path =>
    let r := run_command env [command, version_flag] false
    if !r.1 then
      if r.2.2 ≠ "" then
        (true, extract_version env r.2.2 version_regex, some cmd_path)
      else
        match fallbackOutput env command ["-v", "version", "-version", "--version"] with
        | none => (true, none, some cmd_path)
        | some output => (true, extract_version env output version_regex, some cmd_path)
    else
      (true, extract_version env (if r.2.1 ≠ "" then r.2.1 else r.2.2) version_regex,
        some cmd_path)

/-- `DevToolsChecker.check_xcode`.  In the branch where `Xcode.app` exists,
is selected, but `xcodebuild -version` fails (`check_error=True`), the
source appends an issue and then falls off the function: Python returns
`None`, modelled as `none`. -/
def check_xcode (env : Env) : Option ToolResult :=
  let xcode_app := "/Applications/Xcode.app"
  let sel := run_command env ["xcode-select", "-p"] false
  let xcode_select_path : Option String := if sel.1 then some (pyStrip sel.2.1) else none
  if env.pathExists xcode_app then
    if (match xcode_select_path with
        | some p => (p ≠ "" : Bool) && strContains p "Xcode.app"
        | none => false) then
      let vb := run_command env ["xcodebuild", "-version"] true
      if vb.1 then
        let version := extract_version env vb.2.1 none
        let fl := run_command env ["xcodebuild", "-checkFirstLaunchStatus"] true
        let issues : List Issue :=
          if !fl.1 then
            [⟨"warning", "Xcode may need to complete first launch setup",
              some "sudo xcodebuild -runFirstLaunch"⟩]
          else []
        some
          { id := "xcode", name := "Xcode", category := "required",
            status := if issues.isEmpty then "found" else "warning",
            installed := true, working := true, version := version,
            path := xcode_select_path, check_type := "xcode_special",
            issues := issues, installation := none }
      else
        none
    else
      some
        { id := "xcode", name := "Xcode", category := "required",
          status := "error", installed := true, working := false,
          version := none, path := some xcode_app, check_type := "xcode_special",
          issues := [⟨"error",
            "Xcode.app exists but not selected (current: " ++
              pyShowOpt xcode_select_path ++ ")",
            some "sudo xcode-select -s /Applications/Xcode.app/Contents/Developer"⟩],
          installation := some
            ⟨some "Fix selection",
             some "sudo xcode-select -s /Applications/Xcode.app/Contents/Developer",
             none, none⟩ }
  else if (match xcode_select_path with
      | some p => (p ≠ "" : Bool) && strContains p "CommandLineTools"
      | none => false) then
    some
      { id := "xcode", name := "Xcode", category := "required",
        status := "not_found", installed := false, working := false,
        version := none, path := none, check_type := "xcode_special",
        issues := [⟨"error", "Only Command Line Tools installed, full Xcode required",
          some "Download Xcode from Mac App Store"⟩],
        installation := some
          ⟨some "Mac App Store", none,
           some "https://apps.apple.com/us/app/xcode/id497799835",
           some "Full Xcode installation required for building macOS apps"⟩ }
  else
    some
      { id := "xcode", name := "Xcode", category := "required",
        status := "not_found", installed := false, working := false,
        version := none, path := none, check_type := "xcode_special",
        issues := [⟨"error", "Xcode not installed",
          some "Download from Mac App Store or https://developer.apple.com"⟩],
        installation := some
          ⟨some "Mac App Store", none,
           some "https://apps.apple.com/us/app/xcode/id497799835", none⟩ }

/-- `DevToolsChecker.check_xcode_clt`. -/
def check_xcode_clt (env : Env) : ToolResult :=
  let r := run_command env ["xcode-select", "-p"] false
  if r.1 && pyStrip r.2.1 ≠ "" then
    { id := "xcode_clt", name := "Xcode Command Line Tools", category := "required",
      status := "found", installed := true, working := true,
      version := none, path := some (pyStrip r.2.1), check_type := "directory",
      issues := [], installation := none }
  else
    { id := "xcode_clt", name := "Xcode Command Line Tools", category := "required",
      status := "not_found", installed := false, working := false,
      version := none, path := none, check_type := "directory",
      issues := [⟨"error", "Command Line Tools not installed",
        some "xcode-select --install"⟩],
      installation := some ⟨some "xcode-select", some "xcode-select --install",
        none, none⟩ }

/-- `DevToolsChecker.check_xcodebuild` (runs with `check_error=True`). -/
def check_xcodebuild (env : Env) : ToolResult :=
  let r := run_command env ["xcodebuild", "-version"] true
  if r.1 then
    { id := "xcodebuild", name := "xcodebuild", category := "required",
      status := "found", installed := true, working := true,
      version := extract_version env r.2.1 none, path := none,
      check_type := "command", issues := [], installation := none }
  else if strContains r.2.2 "requires Xcode" then
    { id := "xcodebuild", name := "xcodebuild", category := "required",
      status := "error", installed := (env.which "xcodebuild").isSome,
      working := false, version := none, path := none, check_type := "command",
      issues := [⟨"error",
        "xcodebuild requires Xcode but only Command Line Tools installed",
        some "Install full Xcode from Mac App Store"⟩],
      installation := some ⟨some "Install Xcode", none,
        some "https://apps.apple.com/us/app/xcode/id497799835", none⟩ }
  else
    { id := "xcodebuild", name := "xcodebuild", category := "required",
      status := "error", installed := (env.which "xcodebuild").isSome,
      working := false, version := none, path := none, check_type := "command",
      issues := [⟨"error", "xcodebuild not working: " ++ r.2.2,
        some "Check Xcode installation"⟩],
      installation := none }

/-- The `for path in paths: if Path(path).exists(): ...` loop: the first
existing candidate wins. -/
def firstExisting (env : Env) : List String → Option String
  | [] => none
  | p :: ps => if env.pathExists p then some p else firstExisting env ps

/-- `DevToolsChecker.check_framework`: the result id is the display name
lowercased with spaces replaced by underscores, and the category is the
fixed string `"project-specific"`. -/
def check_framework (env : Env) (framework_name : String) (paths : List String) :
    ToolResult :=
  match firstExisting env paths with
  | some path =>
    { id := pyLowerUnderscore framework_name, name := framework_name,
      category := "project-specific", status := "found",
      installed := true, working := true, version := none, path := some path,
      check_type := "framework", issues := [], installation := none }
  | none =>
    { id := pyLowerUnderscore framework_name, name := framework_name,
      category := "project-specific", status := "not_found",
      installed := false, working := false, version := none, path := none,
      check_type := "framework",
      issues := [⟨"warning", framework_name ++ " not found",
        some "May require Xcode or macOS SDK installation"⟩],
      installation := none }

/-- `tool_config.get("check", {}).get("type", "command")`. -/
def checkTypeOf (d : ToolDescriptor) : String :=
  match d.check with
  | none => "command"
  | some c => c.type.getD "command"

/-- The final `return` of `check_tool`, reached for an unknown strategy tag
(including `"custom"` with an unrecognized routine name). -/
def unknownCheckResult (d : ToolDescriptor) (check_type : String) : ToolResult :=
  { id := d.id, name := d.name, category := d.category, status := "error",
    installed := false, working := false, version := none, path := none,
    check_type := check_type,
    issues := [⟨"error", "Unknown check type: " ++ check_type, none⟩],
    installation := none }

/-- `DevToolsChecker.check_tool`.  `Except.error` models a Python
`KeyError` on a missing mandatory configuration key; `Except.ok none`
models `check_tool` returning Python `None` (only possible through
`check_xcode`). -/
def check_tool (env : Env) (d : ToolDescriptor) : Except String (Option ToolResult) :=
  let check_type := checkTypeOf d
  if check_type = "custom" then
    match d.check with
    | none => Except.error "KeyError: check"
    | some c =>
      match c.function with
      | none => Except.error "KeyError: function"
      | some function_name =>
        if function_name = "check_xcode" then Except.ok (check_xcode env)
        else if function_name = "check_xcode_clt" then
          Except.ok (some (check_xcode_clt env))
        else if function_name = "check_xcodebuild" then
          Except.ok (some (check_xcodebuild env))
        else Except.ok (some (unknownCheckResult d check_type))
  else if check_type = "command" then
    match d.check with
    | none => Except.error "KeyError: check"
    | some c =>
      match c.command with
      | none => Except.error "KeyError: command"
      | some command =>
        let version_flag := c.version_flag.getD "--version"
        let r := check_command env command version_flag c.version_regex
        let toolExists := r.1
        let installation := if toolExists then none else d.installation_primary
        Except.ok (some
          { id := d.id, name := d.name, category := d.category,
            status := if toolExists then "found" else "not_found",
            installed := toolExists, working := toolExists,
            version := r.2.1, path := r.2.2, check_type := "command",
            issues :=
              if toolExists then []
              else
                [⟨if d.category = "required" then "error" else "warning",
                  d.name ++ " not found",
                  installation.bind (·.command)⟩],
            installation := installation })
  else if check_type = "directory" then
    match d.check with
    | none => Except.error "KeyError: check"
    | some c =>
      match c.paths with
      | none => Except.error "KeyError: paths"
      | some paths =>
        match firstExisting env paths with
        | some path =>
          Except.ok (some
            { id := d.id, name := d.name, category := d.category,
              status := "found", installed := true, working := true,
              version := none, path := some path, check_type := "directory",
              issues := [], installation := none })
        | none =>
          Except.ok (some
            { id := d.id, name := d.name, category := d.category,
              status := "not_found", installed := false, working := false,
              version := none, path := none, check_type := "directory",
              issues := [], installation := none })
  else if check_type = "framework" then
    match d.check with
    | none => Except.error "KeyError: check"
    | some c =>
      match c.paths with
      | none => Except.error "KeyError: paths"
      | some paths => Except.ok (some (check_framework env d.name paths))
  else Except.ok (some (unknownCheckResult d check_type))

/-- The tool loop of `run_checks`: one `check_tool` call per descriptor, in
order; a `KeyError` propagates, and `asdict(None)` on a `None` result raises
`TypeError`, aborting the batch. -/
def runToolChecks (env : Env) : List ToolDescriptor → Except String (List ToolResult)
  | [] => Except.ok []
  | d :: ds =>
    match check_tool env d with
    | .error e => Except.error e
    | .ok none => Except.error "TypeError: asdict None"
    | .ok (some r) =>
      match runToolChecks env ds with
      | .error e => Except.error e
      | .ok rs => Except.ok (r :: rs)

/-- The summary block of `run_checks`. -/
def makeSummary (results : List ToolResult) : Summary :=
  let required_tools := results.filter (fun r => r.category == "required")
  let optional_tools := results.filter (fun r => r.category == "optional")
  { all_required_present := required_tools.all (fun r => r.working),
    required_count := required_tools.length,
    required_present := required_tools.countP (fun r => r.working),
    optional_count := optional_tools.length,
    optional_present := optional_tools.countP (fun r => r.working) }

/-- The critical recommendation built for a required, non-working result. -/
def criticalRecOf (tool : ToolResult) : Recommendation :=
  { priority := "critical",
    message := "Install " ++ tool.name ++ " - required for building",
    action :=
      match tool.installation with
      | some inst => pyOr inst.command inst.url
      | none => none }

/-- The low recommendation built for an optional, non-working result.  Note
the action consults only the `command` field (no URL fallback). -/
def lowRecOf (tool : ToolResult) : Recommendation :=
  { priority := "low",
    message := "Consider installing " ++ tool.name,
    action :=
      match tool.installation with
      | some inst => inst.command
      | none => none }

/-- `DevToolsChecker.generate_recommendations`: a pass over required-category
failing results, then a pass over optional-category failing results. -/
def generate_recommendations (results : List ToolResult) : List Recommendation :=
  (results.filterMap fun tool =>
    if tool.category == "required" && !tool.working then some (criticalRecOf tool)
    else none) ++
  (results.filterMap fun tool =>
    if tool.category == "optional" && !tool.working then some (lowRecOf tool)
    else none)

/-- `DevToolsChecker.run_checks` (timestamp and system info omitted). -/
def run_checks (env : Env) (tools : List ToolDescriptor) : Except String Report :=
  match runToolChecks env tools with
  | .error e => Except.error e
  | .ok results =>
    Except.ok
      { summary := makeSummary results, tools := results,
        recommendations := generate_recommendations results }

end DevTools

namespace DevTools

/-! Concrete environments and descriptors used by witnesses and
counterexamples. -/

/-- A bare system: nothing on the path, every subprocess missing, no file
exists, no custom pattern matches. -/
def env0 : Env :=
  ⟨fun _ => none, fun _ => .missing, fun _ => false, fun _ _ => none⟩

/-- A system where `/Applications/Xcode.app` exists, `xcode-select -p`
prints a path containing `Xcode.app`, and `xcodebuild -version` exits
nonzero. -/
def envXcodeSelected : Env :=
  { which := fun _ => none,
    run := fun c =>
      if c = ["xcode-select", "-p"] then
        .completed 0 "/Applications/Xcode.app/Contents/Developer\n" ""
      else if c = ["xcodebuild", "-version"] then .completed 1 "" "some error"
      else .missing,
    pathExists := fun p => p == "/Applications/Xcode.app",
    reSearch := fun _ _ => none }

/-- A custom-strategy descriptor routed to `check_xcode`. -/
def descXcodeCustom : ToolDescriptor :=
  { id := "xcode", name := "Xcode", category := "required",
    check := some { type := some "custom", function := some "check_xcode" } }

def widgetSpec : CheckSpec := { type := some "command", command := some "widget" }

/-- A required command-strategy descriptor for an executable absent from the
path of `env0`. -/
def widgetDesc : ToolDescriptor :=
  { id := "widget", name := "Widget", category := "required",
    check := some widgetSpec }

/-- The result `check_tool env0 widgetDesc` produces. -/
def widgetResult : ToolResult :=
  ⟨"widget", "Widget", "required", "not_found", false, false, none, none, "command",
    [⟨"error", "Widget not found", none⟩], none⟩

/-- The aggregate report `run_checks env0 [widgetDesc]` produces. -/
def widgetReport : Report :=
  ⟨⟨false, 1, 0, 0, 0⟩, [widgetResult],
    [⟨"critical", "Install Widget - required for building", none⟩]⟩

def fwSpec : CheckSpec := { type := some "framework", paths := some [] }

/-- A framework-strategy descriptor whose own category is `"required"`. -/
def fwReqDesc : ToolDescriptor :=
  { id := "metal", name := "Metal Framework", category := "required",
    check := some fwSpec }

/-- The result `check_tool env0 fwReqDesc` produces. -/
def fwReqResult : ToolResult :=
  ⟨"metal_framework", "Metal Framework", "project-specific", "not_found", false, false,
    none, none, "framework",
    [⟨"warning", "Metal Framework not found",
      some "May require Xcode or macOS SDK installation"⟩], none⟩

/-- An optional, non-working result whose installation hint has a URL but no
command. -/
def gadgetFail : ToolResult :=
  ⟨"gadget", "Gadget", "optional", "not_found", false, false, none, none, "command", [],
    some ⟨none, none, some "https://example.com/gadget", none⟩⟩

def reqOkA : ToolResult :=
  ⟨"a", "A", "required", "found", true, true, none, none, "command", [], none⟩

def reqBadB : ToolResult :=
  ⟨"b", "B", "required", "not_found", false, false, none, none, "command", [], none⟩

def reqOkC : ToolResult :=
  ⟨"c", "C", "required", "found", true, true, none, none, "command", [], none⟩

/-- Three required results with `working` = `[true, false, true]`. -/
def exampleResults : List ToolResult := [reqOkA, reqBadB, reqOkC]

/-- A system where `tool` resolves on the path, `tool --version` completes
with exit code 1 and no output, and `tool -v` would print `9.9.9`. -/
def envC5 : Env :=
  { which := fun c => if c = "tool" then some "/usr/bin/tool" else none,
    run := fun c =>
      if c = ["tool", "--version"] then .completed 1 "" ""
      else if c = ["tool", "-v"] then .completed 0 "9.9.9" ""
      else .missing,
    pathExists := fun _ => false,
    reSearch := fun _ _ => none }

def dirSpec : CheckSpec :=
  { type := some "directory", paths := some ["/does/not/exist", "/real"] }

/-- A directory-strategy descriptor with a missing first candidate path and
an existing second one. -/
def dirDesc : ToolDescriptor :=
  { id := "d", name := "D", category := "optional", check := some dirSpec }

/-- A system where exactly the path `/real` exists. -/
def envDir : Env :=
  { which := fun _ => none, run := fun _ => .missing,
    pathExists := fun p => p == "/real", reSearch := fun _ _ => none }

def weirdSpec : CheckSpec := { type := some "weird" }

/-- A descriptor with an unknown check-strategy tag. -/
def weirdDesc : ToolDescriptor :=
  { id := "w", name := "W", category := "optional", check := some weirdSpec }

/-- A framework-strategy descriptor whose own id differs from the id derived
from its display name. -/
def fwOtherDesc : ToolDescriptor :=
  { id := "SOMETHING_ELSE", name := "Core Graphics", category := "optional",
    check := some fwSpec }

/-- The result `check_tool env0 fwOtherDesc` produces. -/
def fwOtherResult : ToolResult :=
  ⟨"core_graphics", "Core Graphics", "project-specific", "not_found", false, false,
    none, none, "framework",
    [⟨"warning", "Core Graphics not found",
      some "May require Xcode or macOS SDK installation"⟩], none⟩

end DevTools

namespace DevTools

/-! Structural lemmas about the individual probe routines and the
`check_tool` dispatcher. -/

/-- Every result `check_xcode` actually returns carries category
`"required"` and check type `"xcode_special"`, and satisfies the
installed/working and status/working implications. -/
theorem check_xcode_shape (env : Env) (r : ToolResult) (h : check_xcode env = some r) :
    r.category = "required" ∧ (r.installed = false → r.working = false) ∧
    (r.status = "not_found" → r.working = false) ∧ r.check_type = "xcode_special" := by
  unfold check_xcode at h
  dsimp only at h
  split_ifs at h <;> (cases h; simp)

/-- `check_xcode_clt` always carries category `"required"` and satisfies the
installed/working and status/working implications. -/
theorem check_xcode_clt_shape (env : Env) :
    (check_xcode_clt env).category = "required" ∧
    ((check_xcode_clt env).installed = false → (check_xcode_clt env).working = false) ∧
    ((check_xcode_clt env).status = "not_found" →
      (check_xcode_clt env).working = false) := by
  unfold check_xcode_clt
  dsimp only
  split_ifs <;> simp_all

/-- `check_xcodebuild` always carries category `"required"` and satisfies
the installed/working and status/working implications. -/
theorem check_xcodebuild_shape (env : Env) :
    (check_xcodebuild env).category = "required" ∧
    ((check_xcodebuild env).installed = false →
      (check_xcodebuild env).working = false) ∧
    ((check_xcodebuild env).status = "not_found" →
      (check_xcodebuild env).working = false) := by
  unfold check_xcodebuild
  dsimp only
  split_ifs <;> simp_all

/-- `check_framework` always carries the fixed category
`"project-specific"`, an id derived from the display name, no version, and
satisfies the installed/working and status/working implications. -/
theorem check_framework_shape (env : Env) (n : String) (ps : List String) :
    (check_framework env n ps).category = "project-specific" ∧
    ((check_framework env n ps).installed = false →
      (check_framework env n ps).working = false) ∧
    ((check_framework env n ps).status = "not_found" →
      (check_framework env n ps).working = false) ∧
    (check_framework env n ps).id = pyLowerUnderscore n ∧
    (check_framework env n ps).name = n ∧
    (check_framework env n ps).version = none := by
  unfold check_framework
  rcases firstExisting env ps with _ | p <;> simp

/-- Reduction of `check_tool` on a custom-strategy descriptor with a known
routine name. -/
theorem check_tool_custom_eq (env : Env) (d : ToolDescriptor) (c : CheckSpec) (f : String)
    (hc : d.check = some c) (ht : c.type.getD "command" = "custom")
    (hf : c.function = some f) :
    check_tool env d =
      (if f = "check_xcode" then Except.ok (check_xcode env)
       else if f = "check_xcode_clt" then Except.ok (some (check_xcode_clt env))
       else if f = "check_xcodebuild" then Except.ok (some (check_xcodebuild env))
       else Except.ok (some (unknownCheckResult d "custom"))) := by
  have hct : checkTypeOf d = "custom" := by simp [checkTypeOf, hc, ht]
  unfold check_tool
  dsimp only
  rw [hct, if_pos rfl, hc]
  dsimp only
  rw [hf]

/-- Field values of the result a command-strategy descriptor produces. -/
theorem check_tool_command_fields (env : Env) (d : ToolDescriptor) (c : CheckSpec)
    (cmd : String) (r : ToolResult) (hc : d.check = some c)
    (ht : c.type.getD "command" = "command") (hcmd : c.command = some cmd)
    (h : check_tool env d = Except.ok (some r)) :
    r.category = d.category ∧ r.id = d.id ∧ r.name = d.name ∧ r.check_type = "command" ∧
    r.installed = (check_command env cmd (c.version_flag.getD "--version") c.version_regex).1 ∧
    r.working = r.installed ∧
    r.version = (check_command env cmd (c.version_flag.getD "--version") c.version_regex).2.1 := by
  have hct : checkTypeOf d = "command" := by simp [checkTypeOf, hc, ht]
  unfold check_tool at h
  dsimp only at h
  rw [hct, if_neg (by decide : ¬("command" = "custom")), if_pos rfl, hc] at h
  dsimp only at h
  rw [hcmd] at h
  dsimp only at h
  simp only [Except.ok.injEq, Option.some.injEq] at h
  subst h
  exact ⟨rfl, rfl, rfl, rfl, rfl, rfl, rfl⟩

/-- A command-strategy descriptor with no `command` key raises `KeyError`. -/
theorem check_tool_command_keyerr (env : Env) (d : ToolDescriptor) (c : CheckSpec)
    (hc : d.check = some c) (ht : c.type.getD "command" = "command")
    (hcmd : c.command = none) :
    check_tool env d = Except.error "KeyError: command" := by
  have hct : checkTypeOf d = "command" := by simp [checkTypeOf, hc, ht]
  unfold check_tool
  dsimp only
  rw [hct, if_neg (by decide : ¬("command" = "custom")), if_pos rfl, hc]
  dsimp only
  rw [hcmd]

/-- Reduction of `check_tool` on a directory-strategy descriptor. -/
theorem check_tool_directory_eq (env : Env) (d : ToolDescriptor) (c : CheckSpec)
    (paths : List String) (hc : d.check = some c)
    (ht : c.type.getD "command" = "directory") (hpaths : c.paths = some paths) :
    check_tool env d =
      Except.ok (some
        (match firstExisting env paths with
         | some path =>
           ⟨d.id, d.name, d.category, "found", true, true, none, some path,
             "directory", [], none⟩
         | none =>
           ⟨d.id, d.name, d.category, "not_found", false, false, none, none,
             "directory", [], none⟩)) := by
  have hct : checkTypeOf d = "directory" := by simp [checkTypeOf, hc, ht]
  unfold check_tool
  dsimp only
  rw [hct, if_neg (by decide : ¬("directory" = "custom")),
    if_neg (by decide : ¬("directory" = "command")), if_pos rfl, hc]
  dsimp only
  rw [hpaths]
  dsimp only
  rcases firstExisting env paths with _ | p <;> rfl

/-- A directory-strategy descriptor with no `paths` key raises `KeyError`. -/
theorem check_tool_directory_keyerr (env : Env) (d : ToolDescriptor) (c : CheckSpec)
    (hc : d.check = some c) (ht : c.type.getD "command" = "directory")
    (hpaths : c.paths = none) :
    check_tool env d = Except.error "KeyError: paths" := by
  have hct : checkTypeOf d = "directory" := by simp [checkTypeOf, hc, ht]
  unfold check_tool
  dsimp only
  rw [hct, if_neg (by decide : ¬("directory" = "custom")),
    if_neg (by decide : ¬("directory" = "command")), if_pos rfl, hc]
  dsimp only
  rw [hpaths]

/-- Reduction of `check_tool` on a framework-strategy descriptor. -/
theorem check_tool_framework_eq (env : Env) (d : ToolDescriptor) (c : CheckSpec)
    (paths : List String) (hc : d.check = some c)
    (ht : c.type.getD "command" = "framework") (hpaths : c.paths = some paths) :
    check_tool env d = Except.ok (some (check_framework env d.name paths)) := by
  have hct : checkTypeOf d = "framework" := by simp [checkTypeOf, hc, ht]
  unfold check_tool
  dsimp only
  rw [hct, if_neg (by decide : ¬("framework" = "custom")),
    if_neg (by decide : ¬("framework" = "command")),
    if_neg (by decide : ¬("framework" = "directory")), if_pos rfl, hc]
  dsimp only
  rw [hpaths]

/-- Reduction of `check_tool` on a descriptor with an unknown strategy tag. -/
theorem check_tool_unknown_eq (env : Env) (d : ToolDescriptor)
    (h1 : checkTypeOf d ≠ "custom") (h2 : checkTypeOf d ≠ "command")
    (h3 : checkTypeOf d ≠ "directory") (h4 : checkTypeOf d ≠ "framework") :
    check_tool env d = Except.ok (some (unknownCheckResult d (checkTypeOf d))) := by
  unfold check_tool
  dsimp only
  rw [if_neg h1, if_neg h2, if_neg h3, if_neg h4]

/-- Every result `check_tool` actually returns satisfies the
installed/working and status/working implications. -/
theorem check_tool_shape (env : Env) (d : ToolDescriptor) (r : ToolResult)
    (h : check_tool env d = Except.ok (some r)) :
    (r.installed = false → r.working = false) ∧
    (r.status = "not_found" → r.working = false) := by
  unfold check_tool at h
  dsimp only at h
  repeat' split at h
  all_goals
    first
    | (simp at h; done)
    | (simp only [Except.ok.injEq] at h
       exact ⟨(check_xcode_shape env r h).2.1, (check_xcode_shape env r h).2.2.1⟩)
    | (simp only [Except.ok.injEq, Option.some.injEq] at h
       cases h
       first
       | exact ⟨(check_xcode_clt_shape env).2.1, (check_xcode_clt_shape env).2.2⟩
       | exact ⟨(check_xcodebuild_shape env).2.1, (check_xcodebuild_shape env).2.2⟩
       | exact ⟨(check_framework_shape env _ _).2.1, (check_framework_shape env _ _).2.2.1⟩
       | (refine ⟨fun hx => ?_, fun hx => ?_⟩ <;> (simp_all [unknownCheckResult]; done)))

/-- `firstExisting` returns exactly the first candidate that exists. -/
theorem firstExisting_eq_some_iff (env : Env) (p : String) :
    ∀ l : List String, firstExisting env l = some p ↔
      ∃ l1 l2, l = l1 ++ p :: l2 ∧ (∀ q ∈ l1, env.pathExists q = false) ∧
        env.pathExists p = true := by
  intro l
  induction l with
  | nil =>
    constructor
    · intro h; exact absurd h (by simp [firstExisting])
    · rintro ⟨l1, l2, heq, -, -⟩; cases l1 <;> simp at heq
  | cons a as ih =>
    by_cases ha : env.pathExists a = true
    · simp only [firstExisting, ha, if_true, Option.some.injEq]
      constructor
      · rintro rfl
        exact ⟨[], as, rfl, by simp, ha⟩
      · rintro ⟨l1, l2, heq, hall, hp⟩
        cases l1 with
        | nil =>
          simp only [List.nil_append, List.cons.injEq] at heq
          exact heq.1
        | cons b bs =>
          simp only [List.cons_append, List.cons.injEq] at heq
          have hb : env.pathExists b = false := hall b (by simp)
          rw [← heq.1, ha] at hb
          exact absurd hb (by simp)
    · have ha2 : env.pathExists a = false := by simpa using ha
      simp only [firstExisting, ha2, Bool.false_eq_true, if_false]
      rw [ih]
      constructor
      · rintro ⟨l1, l2, heq, hall, hp⟩
        refine ⟨a :: l1, l2, by rw [heq]; rfl, ?_, hp⟩
        intro q hq
        rcases List.mem_cons.mp hq with rfl | hq2
        · exact ha2
        · exact hall q hq2
      · rintro ⟨l1, l2, heq, hall, hp⟩
        cases l1 with
        | nil =>
          simp only [List.nil_append, List.cons.injEq] at heq
          rw [heq.1] at ha2
          rw [ha2] at hp
          exact absurd hp (by simp)
        | cons b bs =>
          simp only [List.cons_append, List.cons.injEq] at heq
          exact ⟨bs, l2, heq.2, fun q hq => hall q (by simp [hq]), hp⟩

/-- Every result of a successful batch comes from `check_tool` on one of the
batch's descriptors. -/
theorem runToolChecks_mem (env : Env) :
    ∀ ds rs, runToolChecks env ds = Except.ok rs →
      ∀ r ∈ rs, ∃ d ∈ ds, check_tool env d = Except.ok (some r) := by
  intro ds
  induction ds with
  | nil =>
    intro rs h r hr
    simp only [runToolChecks, Except.ok.injEq] at h
    subst h
    simp at hr
  | cons d ds ih =>
    intro rs h r hr
    unfold runToolChecks at h
    rcases hd : check_tool env d with e | o
    · rw [hd] at h; simp at h
    · rw [hd] at h
      cases o with
      | none => simp at h
      | some r0 =>
        dsimp only at h
        rcases hrest : runToolChecks env ds with e2 | rs0
        · rw [hrest] at h; simp at h
        · rw [hrest] at h
          simp only [Except.ok.injEq] at h
          subst h
          rcases List.mem_cons.mp hr with rfl | hr2
          · exact ⟨d, by simp, hd⟩
          · obtain ⟨d2, hd2, h2⟩ := ih rs0 hrest r hr2
            exact ⟨d2, by simp [hd2], h2⟩

/-- Every required, non-working result contributes a critical
recommendation. -/
theorem critical_rec_exists (rs : List ToolResult) (r : ToolResult)
    (hr : r ∈ rs) (hcat : r.category = "required") (hw : r.working = false) :
    ∃ rec ∈ generate_recommendations rs, rec.priority = "critical" := by
  refine ⟨criticalRecOf r, ?_, rfl⟩
  unfold generate_recommendations
  apply List.mem_append_left
  apply List.mem_filterMap.mpr
  exact ⟨r, hr, by simp [hcat, hw]⟩

/-- Length of a filtered list as a count. -/
theorem length_filter_eq_countP {α : Type} (p : α → Bool) :
    ∀ l : List α, (l.filter p).length = l.countP p := by
  intro l
  induction l with
  | nil => rfl
  | cons a as ih =>
    by_cases hp : p a <;> simp [List.filter_cons, List.countP_cons, hp, ih]

/-- Counting inside a filtered list as a single conjunctive count. -/
theorem countP_filter_eq {α : Type} (p q : α → Bool) :
    ∀ l : List α, (l.filter p).countP q = l.countP (fun a => p a && q a) := by
  intro l
  induction l with
  | nil => rfl
  | cons a as ih =>
    by_cases hp : p a <;> by_cases hq : q a <;>
      simp [List.filter_cons, List.countP_cons, hp, hq, ih]

/-- A guarded `filterMap` is a filter followed by a map. -/
theorem filterMap_guard {α β : Type} (p : α → Bool) (f : α → β) :
    ∀ l : List α,
      (l.filterMap fun a => if p a then some (f a) else none) = (l.filter p).map f := by
  intro l
  induction l with
  | nil => rfl
  | cons a as ih =>
    by_cases hp : p a <;> simp [List.filterMap_cons, List.filter_cons, hp, ih]

end DevTools

namespace DevTools

/-! The claims. -/

/-- Claim C1 (evaluation at the failing input): for the well-formed custom
descriptor routed to `check_xcode`, on a system where `Xcode.app` exists, is
selected, and `xcodebuild -version` exits nonzero, `check_tool` returns
Python `None` instead of a `ToolResult`, and the batch run aborts with a
`TypeError` from `asdict(None)` instead of producing one result per
descriptor. -/
theorem claim1_check_xcode_none_eval :
    check_tool envXcodeSelected descXcodeCustom = Except.ok none ∧
    run_checks envXcodeSelected [descXcodeCustom] =
      Except.error "TypeError: asdict None" := ⟨rfl, rfl⟩

/-- Claim C2: every `ToolResult` produced by `check_tool` (hence by the
generic command/directory/framework strategies, the unknown-strategy error
path, and the three special-case routines it dispatches to) satisfies
`installed = false → working = false`. -/
theorem claim2_installed_imp_working (env : Env) (d : ToolDescriptor) (r : ToolResult)
    (h : check_tool env d = Except.ok (some r)) (hi : r.installed = false) :
    r.working = false :=
  (check_tool_shape env d r h).1 hi

/-- Witness for claim C2 at `env0` / `widgetDesc`. -/
theorem claim2_witness : widgetResult.working = false :=
  claim2_installed_imp_working env0 widgetDesc widgetResult rfl rfl

/-- Claim C3 counterexample: a framework-strategy descriptor whose own
category is `"required"` yields a result with category
`"project-specific"`, so the result's category does not equal the
descriptor's. -/
theorem claim3_cex :
    fwReqDesc.category = "required" ∧
    check_tool env0 fwReqDesc = Except.ok (some fwReqResult) ∧
    fwReqResult.category = "project-specific" := ⟨rfl, rfl, rfl⟩

/-- Claim C3 (amended): the result's category equals the descriptor's for
the command strategy, the directory strategy, and unknown strategy tags
(including custom descriptors with an unrecognized routine name); a
framework-strategy result always carries the fixed category
`"project-specific"`, and the three recognized custom routines always carry
the fixed category `"required"`, regardless of the descriptor's category. -/
theorem category_by_strategy (env : Env) (d : ToolDescriptor) (r : ToolResult)
    (h : check_tool env d = Except.ok (some r)) :
    (∀ c, d.check = some c → c.type.getD "command" = "command" →
      r.category = d.category) ∧
    (∀ c, d.check = some c → c.type.getD "command" = "directory" →
      r.category = d.category) ∧
    (checkTypeOf d ≠ "custom" → checkTypeOf d ≠ "command" →
      checkTypeOf d ≠ "directory" → checkTypeOf d ≠ "framework" →
      r.category = d.category) ∧
    (∀ c, d.check = some c → c.type.getD "command" = "framework" →
      r.category = "project-specific") ∧
    (∀ c f, d.check = some c → c.type.getD "command" = "custom" → c.function = some f →
      ((f = "check_xcode" ∨ f = "check_xcode_clt" ∨ f = "check_xcodebuild") →
        r.category = "required") ∧
      (f ≠ "check_xcode" → f ≠ "check_xcode_clt" → f ≠ "check_xcodebuild" →
        r.category = d.category)) := by
  refine ⟨?_, ?_, ?_, ?_, ?_⟩
  · intro c hc ht
    rcases hcmd : c.command with _ | cmd
    · rw [check_tool_command_keyerr env d c hc ht hcmd] at h
      simp at h
    · exact (check_tool_command_fields env d c cmd r hc ht hcmd h).1
  · intro c hc ht
    rcases hpaths : c.paths with _ | paths
    · rw [check_tool_directory_keyerr env d c hc ht hpaths] at h
      simp at h
    · rw [check_tool_directory_eq env d c paths hc ht hpaths] at h
      simp only [Except.ok.injEq, Option.some.injEq] at h
      rcases hfe : firstExisting env paths with _ | p <;> rw [hfe] at h <;>
        (cases h; rfl)
  · intro h1 h2 h3 h4
    rw [check_tool_unknown_eq env d h1 h2 h3 h4] at h
    simp only [Except.ok.injEq, Option.some.injEq] at h
    cases h
    rfl
  · intro c hc ht
    rcases hpaths : c.paths with _ | paths
    · have hkey : check_tool env d = Except.error "KeyError: paths" := by
        have hct : checkTypeOf d = "framework" := by simp [checkTypeOf, hc, ht]
        unfold check_tool
        dsimp only
        rw [hct, if_neg (by decide : ¬("framework" = "custom")),
          if_neg (by decide : ¬("framework" = "command")),
          if_neg (by decide : ¬("framework" = "directory")), if_pos rfl, hc]
        dsimp only
        rw [hpaths]
      rw [hkey] at h
      simp at h
    · rw [check_tool_framework_eq env d c paths hc ht hpaths] at h
      simp only [Except.ok.injEq, Option.some.injEq] at h
      cases h
      exact (check_framework_shape env d.name paths).1
  · intro c f hc ht hf
    rw [check_tool_custom_eq env d c f hc ht hf] at h
    constructor
    · rintro (rfl | rfl | rfl)
      · rw [if_pos rfl] at h
        simp only [Except.ok.injEq] at h
        exact (check_xcode_shape env r h).1
      · rw [if_neg (by decide : ¬("check_xcode_clt" = "check_xcode")), if_pos rfl] at h
        simp only [Except.ok.injEq, Option.some.injEq] at h
        cases h
        exact (check_xcode_clt_shape env).1
      · rw [if_neg (by decide : ¬("check_xcodebuild" = "check_xcode")),
          if_neg (by decide : ¬("check_xcodebuild" = "check_xcode_clt")), if_pos rfl] at h
        simp only [Except.ok.injEq, Option.some.injEq] at h
        cases h
        exact (check_xcodebuild_shape env).1
    · intro hf1 hf2 hf3
      rw [if_neg hf1, if_neg hf2, if_neg hf3] at h
      simp only [Except.ok.injEq, Option.some.injEq] at h
      cases h
      rfl

/-- Witness for claim C3 at `env0` / `fwReqDesc`. -/
theorem claim3_witness : fwReqResult.category = "project-specific" :=
  (category_by_strategy env0 fwReqDesc fwReqResult rfl).2.2.2.1 fwSpec rfl rfl

/-- Claim C4 counterexample: an optional, non-working result whose
installation hint carries a URL and no command gets a low recommendation
with no action at all — the URL fallback the claim describes is never
applied on the optional pass (it would have produced the URL, as `pyOr`
shows). -/
theorem claim4_cex :
    gadgetFail.category = "optional" ∧ gadgetFail.working = false ∧
    gadgetFail.installation = some ⟨none, none, some "https://example.com/gadget", none⟩ ∧
    pyOr none (some "https://example.com/gadget") = some "https://example.com/gadget" ∧
    generate_recommendations [gadgetFail] =
      [⟨"low", "Consider installing Gadget", none⟩] := ⟨rfl, rfl, rfl, rfl, rfl⟩

/-- Claim C4 (amended): the summary reports `all_required_present` as the
AND of `working` over required-category results together with the four
counts, and the recommendations are the required-category pass followed by
the optional-category pass, each in input order; a critical
recommendation's action is the installation command if present and
non-empty, else the URL, else absent, while a low recommendation's action
is the installation command field only — the URL is never used on the
optional pass. -/
theorem aggregator_spec (rs : List ToolResult) :
    ((makeSummary rs).all_required_present = true ↔
      ∀ r ∈ rs, r.category = "required" → r.working = true) ∧
    (makeSummary rs).required_count = rs.countP (fun r => r.category == "required") ∧
    (makeSummary rs).required_present =
      rs.countP (fun r => r.category == "required" && r.working) ∧
    (makeSummary rs).optional_count = rs.countP (fun r => r.category == "optional") ∧
    (makeSummary rs).optional_present =
      rs.countP (fun r => r.category == "optional" && r.working) ∧
    generate_recommendations rs =
      (rs.filter (fun r => r.category == "required" && !r.working)).map criticalRecOf ++
      (rs.filter (fun r => r.category == "optional" && !r.working)).map lowRecOf ∧
    (∀ t : ToolResult, t.installation = none →
      (criticalRecOf t).action = none ∧ (lowRecOf t).action = none) ∧
    (∀ t : ToolResult, ∀ inst, t.installation = some inst →
      (criticalRecOf t).action = pyOr inst.command inst.url ∧
      (lowRecOf t).action = inst.command) := by
  refine ⟨?_, ?_, ?_, ?_, ?_, ?_, ?_, ?_⟩
  · simp only [makeSummary, List.all_eq_true, List.mem_filter, Bool.and_eq_true,
      beq_iff_eq]
    constructor
    · intro hall r hr hcat
      exact hall r ⟨hr, hcat⟩
    · rintro hall r ⟨hr, hcat⟩
      exact hall r hr hcat
  · simp [makeSummary, length_filter_eq_countP]
  · simp [makeSummary, countP_filter_eq]
  · simp [makeSummary, length_filter_eq_countP]
  · simp [makeSummary, countP_filter_eq]
  · unfold generate_recommendations
    rw [filterMap_guard (fun r => r.category == "required" && !r.working) criticalRecOf rs,
      filterMap_guard (fun r => r.category == "optional" && !r.working) lowRecOf rs]
  · intro t h
    constructor <;> simp [criticalRecOf, lowRecOf, h]
  · intro t inst h
    constructor <;> simp [criticalRecOf, lowRecOf, h]

/-- Witness for claim C4 on three required results with `working` =
`[true, false, true]`. -/
theorem claim4_witness :
    (makeSummary exampleResults).required_present =
      exampleResults.countP (fun r => r.category == "required" && r.working) ∧
    (makeSummary exampleResults).required_present = 2 ∧
    (makeSummary exampleResults).required_count = 3 ∧
    (makeSummary exampleResults).all_required_present = false ∧
    generate_recommendations exampleResults =
      [⟨"critical", "Install B - required for building", none⟩] :=
  ⟨(aggregator_spec exampleResults).2.2.1, rfl, rfl, rfl, rfl⟩

/-- Claim C5 counterexample: `tool` resolves on the path, its primary probe
`tool --version` completes with exit code 1 (exit indicates failure) and no
output, and the fallback flag `-v` would produce `9.9.9` (whose extracted
version is `9.9.9`), yet `check_command` reports no version: the fallback
sequence is not tried on a nonzero exit. -/
theorem claim5_cex :
    envC5.run ["tool", "--version"] = RunOutcome.completed 1 "" "" ∧
    fallbackOutput envC5 "tool" ["-v", "version", "-version", "--version"] =
      some "9.9.9" ∧
    extract_version envC5 "9.9.9" none = some "9.9.9" ∧
    check_command envC5 "tool" "--version" none =
      (true, none, some "/usr/bin/tool") := ⟨rfl, rfl, rfl, rfl⟩

/-- Claim C5 (amended): when the executable resolves, any completed primary
probe — whatever its exit code — yields `exists = true` with the version
extracted from its own output; the fallback flags are tried only when the
primary invocation failed at the process level with empty stderr text, they
stop at the first flag whose run reports success or produces any output,
and if the loop is exhausted the result is still `exists = true` (hence
`working = true` for the command strategy) with version absent. -/
theorem check_command_spec (env : Env) (cmd flag : String) (rx : Option String) :
    (env.which cmd = none → check_command env cmd flag rx = (false, none, none)) ∧
    (∀ p, env.which cmd = some p →
      (∀ rc out err, env.run [cmd, flag] = RunOutcome.completed rc out err →
        check_command env cmd flag rx =
          (true, extract_version env (if out ≠ "" then out else err) rx, some p)) ∧
      ((run_command env [cmd, flag] false).1 = false →
        (run_command env [cmd, flag] false).2.2 ≠ "" →
        check_command env cmd flag rx =
          (true, extract_version env (run_command env [cmd, flag] false).2.2 rx, some p)) ∧
      ((run_command env [cmd, flag] false).1 = false →
        (run_command env [cmd, flag] false).2.2 = "" →
        (fallbackOutput env cmd ["-v", "version", "-version", "--version"] = none →
          check_command env cmd flag rx = (true, none, some p)) ∧
        (∀ o, fallbackOutput env cmd ["-v", "version", "-version", "--version"] = some o →
          check_command env cmd flag rx = (true, extract_version env o rx, some p)))) ∧
    (∀ fl rest, fallbackOutput env cmd (fl :: rest) =
      (if (run_command env [cmd, fl] false).1
          || (run_command env [cmd, fl] false).2.1 ≠ ""
          || (run_command env [cmd, fl] false).2.2 ≠ "" then
        some (if (run_command env [cmd, fl] false).2.1 ≠ ""
          then (run_command env [cmd, fl] false).2.1
          else (run_command env [cmd, fl] false).2.2)
      else fallbackOutput env cmd rest)) := by
  have key : ∀ p, env.which cmd = some p → ∀ b so se,
      run_command env [cmd, flag] false = (b, so, se) →
      check_command env cmd flag rx =
        (if !b then
          if se ≠ "" then (true, extract_version env se rx, some p)
          else
            match fallbackOutput env cmd ["-v", "version", "-version", "--version"] with
            | none => (true, none, some p)
            | some output => (true, extract_version env output rx, some p)
        else (true, extract_version env (if so ≠ "" then so else se) rx, some p)) := by
    intro p hp b so se hr
    unfold check_command
    rw [hp]
    try dsimp only
    rw [hr]
  refine ⟨?_, ?_, ?_⟩
  · intro h
    unfold check_command
    rw [h]
  · intro p hp
    refine ⟨?_, ?_, ?_⟩
    · intro rc out err hrun
      have hrc : run_command env [cmd, flag] false = (true, out, err) := by
        unfold run_command
        rw [hrun]
        rfl
      rw [key p hp true out err hrc]
      rfl
    · intro hs hne
      rw [key p hp (run_command env [cmd, flag] false).1
        (run_command env [cmd, flag] false).2.1
        (run_command env [cmd, flag] false).2.2 rfl, hs, if_pos hne]
      rfl
    · intro hs he
      have hne2 : ¬((run_command env [cmd, flag] false).2.2 ≠ "") := by simp [he]
      constructor
      · intro hfb
        rw [key p hp (run_command env [cmd, flag] false).1
          (run_command env [cmd, flag] false).2.1
          (run_command env [cmd, flag] false).2.2 rfl, hs, if_neg hne2, hfb]
        rfl
      · intro o hfb
        rw [key p hp (run_command env [cmd, flag] false).1
          (run_command env [cmd, flag] false).2.1
          (run_command env [cmd, flag] false).2.2 rfl, hs, if_neg hne2, hfb]
        rfl
  · intro fl rest
    rfl

/-- Witness for claim C5 at `env0` (executable absent from the path). -/
theorem claim5_witness :
    check_command env0 "tool" "--version" none = (false, none, none) :=
  (check_command_spec env0 "tool" "--version" none).1 rfl

/-- Claim C6: in every aggregate report, a result with status `not_found`
has `working = false`, and if it is required-category then the
recommendations list contains a critical-priority entry. -/
theorem not_found_required_critical (env : Env) (ds : List ToolDescriptor)
    (report : Report) (h : run_checks env ds = Except.ok report)
    (r : ToolResult) (hr : r ∈ report.tools) (hnf : r.status = "not_found") :
    r.working = false ∧
    (r.category = "required" →
      ∃ rec ∈ report.recommendations, rec.priority = "critical") := by
  unfold run_checks at h
  rcases hrun : runToolChecks env ds with e | results
  · rw [hrun] at h
    simp at h
  · rw [hrun] at h
    simp only [Except.ok.injEq] at h
    subst h
    obtain ⟨d, hd, hcd⟩ := runToolChecks_mem env ds results hrun r hr
    have hw := (check_tool_shape env d r hcd).2 hnf
    exact ⟨hw, fun hcat => critical_rec_exists results r hr hcat hw⟩

/-- Witness for claim C6 on the one-descriptor batch `[widgetDesc]`. -/
theorem claim6_witness :
    widgetResult.working = false ∧
    ∃ rec ∈ widgetReport.recommendations, rec.priority = "critical" :=
  ⟨(not_found_required_critical env0 [widgetDesc] widgetReport rfl widgetResult
      (List.mem_cons_self _ _) rfl).1,
   (not_found_required_critical env0 [widgetDesc] widgetReport rfl widgetResult
      (List.mem_cons_self _ _) rfl).2 rfl⟩

/-- Claim C7: version extraction tries the custom pattern first (group 1
when the pattern has groups, else the full match), falls back to the three
default patterns tried in order when there is no custom pattern or it does
not match, and on the concrete examples extracts `12.3` from
`tool version 12.3` and `1.2.3` from `v1.2.3 release`. -/
theorem extract_version_spec (env : Env) (out rx : String) (m : ReMatch) :
    (extract_version env out none = if out = "" then none else findDefault out) ∧
    (out ≠ "" → env.reSearch rx out = some m →
      extract_version env out (some rx) =
        (if m.hasGroups then m.group1 else some m.group0)) ∧
    (out ≠ "" → env.reSearch rx out = none →
      extract_version env out (some rx) = findDefault out) ∧
    (findDefault out =
      (match searchPat matchNumTriple out with
       | some v => some v
       | none =>
         match searchPat matchVersionLabel out with
         | some v => some v
         | none => searchPat matchVTriple out)) ∧
    findDefault "tool version 12.3" = some "12.3" ∧
    findDefault "v1.2.3 release" = some "1.2.3" := by
  refine ⟨rfl, ?_, ?_, ?_, rfl, rfl⟩
  · intro h hsm
    unfold extract_version
    rw [if_neg h]
    try dsimp only
    rw [hsm]
  · intro h hsn
    unfold extract_version
    rw [if_neg h]
    try dsimp only
    rw [hsn]
  · unfold findDefault defaultMatchers tryPatterns
    rcases searchPat matchNumTriple out with _ | v
    · dsimp only
      unfold tryPatterns
      rcases searchPat matchVersionLabel out with _ | v
      · dsimp only
        unfold tryPatterns
        rcases searchPat matchVTriple out with _ | v <;> rfl
      · rfl
    · rfl

/-- Witness for claim C7: with no matching custom pattern the default
patterns apply, extracting `12.3` from `tool version 12.3`. -/
theorem claim7_witness :
    extract_version env0 "tool version 12.3" (some "x") =
      findDefault "tool version 12.3" ∧
    extract_version env0 "tool version 12.3" (some "x") = some "12.3" := by
  have h1 := (extract_version_spec env0 "tool version 12.3" "x" ⟨false, none, ""⟩).2.2.1
    (by decide) rfl
  exact ⟨h1, h1.trans rfl⟩

/-- Claim C8: a directory-strategy descriptor yields `found` /
`installed=true` / `working=true` with `path` equal to the first existing
candidate (first match wins, as the `firstExisting` characterization
states), yields `not_found` / `installed=false` / `working=false` when no
candidate exists, and never carries a version. -/
theorem directory_strategy_spec (env : Env) (d : ToolDescriptor) (c : CheckSpec)
    (paths : List String) (hc : d.check = some c)
    (ht : c.type.getD "command" = "directory") (hpaths : c.paths = some paths) :
    (∀ p, firstExisting env paths = some p →
      check_tool env d = Except.ok (some
        ⟨d.id, d.name, d.category, "found", true, true, none, some p,
          "directory", [], none⟩)) ∧
    (firstExisting env paths = none →
      check_tool env d = Except.ok (some
        ⟨d.id, d.name, d.category, "not_found", false, false, none, none,
          "directory", [], none⟩)) ∧
    (∀ p, firstExisting env paths = some p ↔
      ∃ l1 l2, paths = l1 ++ p :: l2 ∧ (∀ q ∈ l1, env.pathExists q = false) ∧
        env.pathExists p = true) := by
  refine ⟨?_, ?_, fun p => firstExisting_eq_some_iff env p paths⟩
  · intro p hp
    rw [check_tool_directory_eq env d c paths hc ht hpaths, hp]
  · intro hp
    rw [check_tool_directory_eq env d c paths hc ht hpaths, hp]

/-- Witness for claim C8: candidates `["/does/not/exist", "/real"]` on a
system where only `/real` exists give `found` at `/real` with no version. -/
theorem claim8_witness :
    check_tool envDir dirDesc = Except.ok (some
      ⟨"d", "D", "optional", "found", true, true, none, some "/real", "directory",
        [], none⟩) :=
  (directory_strategy_spec envDir dirDesc dirSpec ["/does/not/exist", "/real"]
    rfl rfl rfl).1 "/real" rfl

/-- Claim C9: an unknown check-strategy tag, or a custom-strategy descriptor
with an unrecognized routine name, yields an error-status result carrying an
"Unknown check type" issue, and the batch continues with the remaining
descriptors. -/
theorem unknown_check_type_spec (env : Env) (d : ToolDescriptor) :
    ((checkTypeOf d ≠ "custom" ∧ checkTypeOf d ≠ "command" ∧
      checkTypeOf d ≠ "directory" ∧ checkTypeOf d ≠ "framework") →
      check_tool env d = Except.ok (some (unknownCheckResult d (checkTypeOf d))) ∧
      (unknownCheckResult d (checkTypeOf d)).status = "error" ∧
      (unknownCheckResult d (checkTypeOf d)).installed = false ∧
      (unknownCheckResult d (checkTypeOf d)).working = false ∧
      (unknownCheckResult d (checkTypeOf d)).issues =
        [⟨"error", "Unknown check type: " ++ checkTypeOf d, none⟩]) ∧
    (∀ c f, d.check = some c → c.type.getD "command" = "custom" → c.function = some f →
      f ≠ "check_xcode" → f ≠ "check_xcode_clt" → f ≠ "check_xcodebuild" →
      check_tool env d = Except.ok (some (unknownCheckResult d "custom")) ∧
      (unknownCheckResult d "custom").status = "error" ∧
      (unknownCheckResult d "custom").issues =
        [⟨"error", "Unknown check type: custom", none⟩]) ∧
    (∀ ds rs r, check_tool env d = Except.ok (some r) →
      runToolChecks env ds = Except.ok rs →
      runToolChecks env (d :: ds) = Except.ok (r :: rs)) := by
  refine ⟨?_, ?_, ?_⟩
  · rintro ⟨h1, h2, h3, h4⟩
    exact ⟨check_tool_unknown_eq env d h1 h2 h3 h4, rfl, rfl, rfl, rfl⟩
  · intro c f hc ht hf hf1 hf2 hf3
    rw [check_tool_custom_eq env d c f hc ht hf, if_neg hf1, if_neg hf2, if_neg hf3]
    exact ⟨rfl, rfl, rfl⟩
  · intro ds rs r h1 h2
    unfold runToolChecks
    rw [h1]
    try dsimp only
    rw [h2]

/-- Witness for claim C9 on a descriptor with strategy tag `"weird"`. -/
theorem claim9_witness :
    check_tool env0 weirdDesc =
      Except.ok (some (unknownCheckResult weirdDesc (checkTypeOf weirdDesc))) ∧
    (unknownCheckResult weirdDesc (checkTypeOf weirdDesc)).status = "error" ∧
    (unknownCheckResult weirdDesc (checkTypeOf weirdDesc)).installed = false ∧
    (unknownCheckResult weirdDesc (checkTypeOf weirdDesc)).working = false ∧
    (unknownCheckResult weirdDesc (checkTypeOf weirdDesc)).issues =
      [⟨"error", "Unknown check type: " ++ checkTypeOf weirdDesc, none⟩] :=
  (unknown_check_type_spec env0 weirdDesc).1
    ⟨by decide, by decide, by decide, by decide⟩

/-- Claim C10: a framework-strategy result's id is the descriptor's display
name lowercased with spaces replaced by underscores, regardless of the
descriptor's own id, in both outcomes (the abstract environment covers both
the found and not-found cases). -/
theorem framework_id_spec (env : Env) (d : ToolDescriptor) (c : CheckSpec)
    (paths : List String) (r : ToolResult) (hc : d.check = some c)
    (ht : c.type.getD "command" = "framework") (hpaths : c.paths = some paths)
    (h : check_tool env d = Except.ok (some r)) :
    r.id = pyLowerUnderscore d.name ∧ r.name = d.name := by
  rw [check_tool_framework_eq env d c paths hc ht hpaths] at h
  simp only [Except.ok.injEq, Option.some.injEq] at h
  cases h
  exact ⟨(check_framework_shape env d.name paths).2.2.2.1,
    (check_framework_shape env d.name paths).2.2.2.2.1⟩

/-- Witness for claim C10 on a descriptor whose id is `"SOMETHING_ELSE"`
but whose name is `"Core Graphics"`: the result id is `"core_graphics"`. -/
theorem claim10_witness :
    (fwOtherResult.id = pyLowerUnderscore fwOtherDesc.name ∧
      fwOtherResult.name = fwOtherDesc.name) ∧
    fwOtherDesc.id = "SOMETHING_ELSE" ∧ fwOtherResult.id = "core_graphics" :=
  ⟨framework_id_spec env0 fwOtherDesc fwSpec [] fwOtherResult rfl rfl rfl rfl, rfl, rfl⟩

end DevTools
